import Mathlib

/-!
Texture layer generation of the Paradox importer.

Shallow embedding of `TextureLayerGenerator` from
`sources/tools/SiliconStudio.Paradox.Importer.Common/Paradox.Importer.Common.cpp`.

The two static methods are embedded as pure functions in state passing style:
the by-reference counter, the logger and the mesh go in as arguments and come
back in the record of the run, next to the returned value and the final values
of the locals of the method.

* `int` is a signed 32 bit integer: the increment of the counter wraps.
* The components of `Vector2` are single precision numbers. The methods only
  compare them with the constant one and render them as text, so the component
  type is a type parameter `F` with decidable equality, a zero and a one; its
  rendering is a field of `Platform`.
* The file system, the path helper and the name of a parameter key are fields
  of `Platform`.
-/

namespace Paradox

/-! ## Machine integers -/

/-- Smallest value of a signed 32 bit integer. -/
def Int32.MinValue : Int := -2147483648

/-- Largest value of a signed 32 bit integer. -/
def Int32.MaxValue : Int := 2147483647

/-- Reduction of an integer to the signed 32 bit range, the way the unchecked
addition of the runtime wraps. -/
def Int32.wrap (x : Int) : Int := (x + 2147483648) % 4294967296 - 2147483648

/-- Membership of the signed 32 bit range. -/
def Int32.InRange (x : Int) : Prop := Int32.MinValue ≤ x ∧ x ≤ Int32.MaxValue

instance (x : Int) : Decidable (Int32.InRange x) := by
  unfold Int32.InRange; exact inferInstance

/-- Text of an `int` appended to a string: `Int32.ToString()`, an optional
minus sign followed by the decimal digits. -/
def Int32.ToString (i : Int) : String := toString i

/-! ## Engine types used by the generator -/

/-- Modelled from the spec: `Vector2` of the engine mathematics library is not
part of the sources. It is a pair of components; `!=` is the componentwise
comparison the spec words as "UV scaling ≠ (1,1)", here the decidable
equality of the record. -/
structure Vector2 (F : Type) where
  X : F
  Y : F
deriving DecidableEq

/-- The constant `Vector2::One`. -/
def Vector2.One {F : Type} [One F] : Vector2 F := ⟨1, 1⟩

/-- The constant `Vector2::Zero`. -/
def Vector2.Zero {F : Type} [Zero F] : Vector2 F := ⟨0, 0⟩

/-- The indexer `v[i]` of `Vector2`: component 0 is `X`, component 1 is `Y`. -/
def Vector2.get {F : Type} (v : Vector2 F) (i : Nat) : F :=
  if i = 0 then v.X else v.Y

/-- Modelled from the spec: the result of `ParameterKeys::IndexedKey`, which is
not part of the sources. The spec describes the indexed parameter key as the
pair of a base key and an integer index. -/
structure IndexedParameterKey (Key : Type) where
  baseKey : Key
  index : Int
deriving DecidableEq

/-- Modelled from the spec: `ParameterKeys::IndexedKey(key, index)`. -/
def ParameterKeys.IndexedKey {Key : Type} (key : Key) (index : Int) :
    IndexedParameterKey Key := ⟨key, index⟩

/-- Modelled from the spec: `ShaderClassSource`, a class name with its ordered
list of string arguments. -/
structure ShaderClassSource where
  ClassName : String
  GenericArguments : List String
deriving DecidableEq

/-- Modelled from the spec: `ContentReference<Texture>`, a reference to a
texture by its location string. -/
structure ContentReference where
  Location : String
deriving DecidableEq

/-- A `System::Guid`, sixteen bytes read as one number. -/
structure Guid where
  value : Nat
deriving DecidableEq

/-- The expression `System::Guid()`: the default constructor of the value type,
whose bytes are all zero. -/
def Guid.default : Guid := ⟨0⟩

/-- Modelled from the spec: the texture object that
`AttachedReferenceManager::CreateSerializableVersion` returns, a reference
identity made of an id and a display name. -/
structure AttachedTexture where
  Id : Guid
  Name : String
deriving DecidableEq

/-- Modelled from the spec:
`AttachedReferenceManager::CreateSerializableVersion<Texture>(id, name)`
keeps the id and the name it is given. -/
def AttachedReferenceManager.CreateSerializableVersion (id : Guid) (name : String) :
    AttachedTexture := ⟨id, name⟩

/-- The enumeration `TextureAddressMode`, restricted to the two values used. -/
inductive TextureAddressMode where
  | Wrap
  | Clamp
deriving DecidableEq

/-- Modelled from the spec: `ComputeTextureColor`, the structured sampling
node. `TexcoordIndex` holds the integer value of the `TextureCoordinate`
enumeration the index is cast to. -/
structure ComputeTextureColor (F : Type) where
  Texture : AttachedTexture
  TexcoordIndex : Int
  Scale : Vector2 F
  Offset : Vector2 F
  AddressModeU : TextureAddressMode
  AddressModeV : TextureAddressMode
deriving DecidableEq

/-- Modelled from the spec: the constructor
`ComputeTextureColor(texture, texcoordIndex, scale, offset)`. The addressing
modes start at `Wrap` and are assigned by the caller right after. -/
def ComputeTextureColor.new {F : Type} (texture : AttachedTexture) (texcoordIndex : Int)
    (scale offset : Vector2 F) : ComputeTextureColor F :=
  ⟨texture, texcoordIndex, scale, offset, TextureAddressMode.Wrap, TextureAddressMode.Wrap⟩

/-! ## Logger -/

/-- One call of `Logger::Warning`: the message template and the argument that
fills its placeholder. The call site information is left out. -/
structure LogMessage where
  Format : String
  Argument : String
deriving DecidableEq

/-- A logger, as the list of the warnings it has received, oldest first. -/
structure Logger where
  Messages : List LogMessage
deriving DecidableEq

/-- The method `Logger::Warning`. -/
def Logger.Warning (logger : Logger) (format argument : String) : Logger :=
  ⟨logger.Messages ++ [⟨format, argument⟩]⟩

/-- The message template of the warning of both methods. -/
def missingTextureFormat : String :=
  "The texture \x27\x7b0\x7d\x27 referenced in the mesh material can not be found on the system. Loading will probably fail at run time."

/-! ## Collaborators -/

/-- What the generator reads from its surroundings. -/
structure Platform (F Key : Type) where
  /-- `Path::GetFileNameWithoutExtension`. -/
  GetFileNameWithoutExtension : String → String
  /-- `File::Exists`, the state of the file system during the call. -/
  FileExists : String → Bool
  /-- `Single.ToString()`, as string concatenation applies it. -/
  SingleToString : F → String
  /-- The property `ParameterKey::Name`. -/
  KeyName : IndexedParameterKey Key → String

/-! ## TextureLayerGenerator -/

namespace TextureLayerGenerator

/-- Outcome of one call of `GenerateTextureLayer`: the returned value, the
arguments that the caller can observe afterwards and the locals. -/
structure TextureLayerRun (Key Mesh : Type) where
  /-- The returned `ShaderClassSource`. -/
  result : ShaderClassSource
  /-- The counter `textureCount` after the call. -/
  textureCount : Int
  /-- The object `meshData` after the call. -/
  meshData : Mesh
  /-- The logger after the call. -/
  logger : Option Logger
  /-- The local `texture`. -/
  texture : ContentReference
  /-- The local `parameterKey`. -/
  parameterKey : IndexedParameterKey Key
  /-- The local `uvSetName`. -/
  uvSetName : String

/-- The warning block shared by both methods: lines 77 to 84 and 110 to 117. -/
def warnTexture {F Key : Type} (env : Platform F Key) (sourceTextureFile : String)
    (logger : Option Logger) : Option Logger :=
  if env.FileExists sourceTextureFile then
    match logger with
    | some l => some (l.Warning missingTextureFormat sourceTextureFile)
    | none => none
  else logger

/-- The name of the texture coordinate stream: lines 91 to 93. -/
def uvSetName (textureUVSetIndex : Int) : String :=
  let uvSetName := "TEXCOORD"
  if textureUVSetIndex ≠ 0 then uvSetName ++ Int32.ToString textureUVSetIndex else uvSetName

/-- The method `GenerateTextureLayer`. -/
def GenerateTextureLayer {F Key Mesh : Type} [DecidableEq F] [One F]
    (env : Platform F Key) (vfsOutputPath sourceTextureFile : String)
    (textureUVSetIndex : Int) (textureUVscaling : Vector2 F) (textureCount : Int)
    (surfaceMaterialKey : Key) (meshData : Mesh) (logger : Option Logger) :
    TextureLayerRun Key Mesh :=
  let url := vfsOutputPath ++ "_" ++ env.GetFileNameWithoutExtension sourceTextureFile
  let texture : ContentReference := ⟨url⟩
  let logger := warnTexture env sourceTextureFile logger
  let parameterKey := ParameterKeys.IndexedKey surfaceMaterialKey textureCount
  let textureCount := Int32.wrap (textureCount + 1)
  let uvSetName := uvSetName textureUVSetIndex
  let uvScaling := textureUVscaling
  let textureName := env.KeyName parameterKey
  let needScaling := uvScaling ≠ Vector2.One
  let currentComposition : ShaderClassSource :=
    if needScaling then
      ⟨"ComputeColorTextureRepeat",
        [textureName, uvSetName,
          "float2(" ++ env.SingleToString (uvScaling.get 0) ++ ", "
            ++ env.SingleToString (uvScaling.get 1) ++ ")"]⟩
    else
      ⟨"ComputeColorTexture", [textureName, uvSetName]⟩
  ⟨currentComposition, textureCount, meshData, logger, texture, parameterKey, uvSetName⟩

/-- Outcome of one call of `GenerateMaterialTextureNode`. -/
structure MaterialTextureRun (F : Type) where
  /-- The returned `ComputeTextureColor`. -/
  result : ComputeTextureColor F
  /-- The logger after the call. -/
  logger : Option Logger
  /-- The local `url`. -/
  url : String

/-- The method `GenerateMaterialTextureNode`. -/
def GenerateMaterialTextureNode {F Key : Type} [Zero F]
    (env : Platform F Key) (vfsOutputPath sourceTextureFile : String)
    (textureUVSetIndex : Int) (textureUVscaling : Vector2 F)
    (wrapTextureU wrapTextureV : Bool) (logger : Option Logger) :
    MaterialTextureRun F :=
  let textureFileName := env.GetFileNameWithoutExtension sourceTextureFile
  let url := vfsOutputPath ++ "_" ++ textureFileName
  let logger := warnTexture env sourceTextureFile logger
  let uvScaling := textureUVscaling
  let textureName := textureFileName
  let texture := AttachedReferenceManager.CreateSerializableVersion Guid.default textureName
  let currentTexture := ComputeTextureColor.new texture textureUVSetIndex uvScaling Vector2.Zero
  let currentTexture := { currentTexture with
    AddressModeU := if wrapTextureU then TextureAddressMode.Wrap else TextureAddressMode.Clamp }
  let currentTexture := { currentTexture with
    AddressModeV := if wrapTextureV then TextureAddressMode.Wrap else TextureAddressMode.Clamp }
  ⟨currentTexture, logger, url⟩

end TextureLayerGenerator

/-! ## A concrete platform -/

/-- A platform over integer components with a file system that holds the single
file `wood.png`; a file name loses everything from its first dot on. -/
def samplePlatform : Platform Int String where
  GetFileNameWithoutExtension := fun p => String.mk (p.data.takeWhile (fun ch => ch != '.'))
  FileExists := fun p => p == "wood.png"
  SingleToString := fun x => toString x
  KeyName := fun k => k.baseKey ++ toString k.index

/-! ## Sequences of calls -/

/-- The arguments of one call of `GenerateTextureLayer`, the counter apart. -/
structure LayerCall (F Key Mesh : Type) where
  vfsOutputPath : String
  sourceTextureFile : String
  textureUVSetIndex : Int
  textureUVscaling : Vector2 F
  surfaceMaterialKey : Key
  meshData : Mesh
  logger : Option Logger

/-- Calls of `GenerateTextureLayer` made one after the other on one counter:
each call starts from the counter the call before it left. -/
def runLayers {F Key Mesh : Type} [DecidableEq F] [One F] (env : Platform F Key) :
    List (LayerCall F Key Mesh) → Int → List (TextureLayerGenerator.TextureLayerRun Key Mesh)
  | [], _ => []
  | call :: rest, textureCount =>
    let run := TextureLayerGenerator.GenerateTextureLayer env call.vfsOutputPath
      call.sourceTextureFile call.textureUVSetIndex call.textureUVscaling textureCount
      call.surfaceMaterialKey call.meshData call.logger
    run :: runLayers env rest run.textureCount

/-- The key indices that a sequence of calls allocates, in call order. -/
def allocatedIndices {F Key Mesh : Type} [DecidableEq F] [One F] (env : Platform F Key)
    (calls : List (LayerCall F Key Mesh)) (textureCount : Int) : List Int :=
  (runLayers env calls textureCount).map (fun run => run.parameterKey.index)

/-! ## Reading decimal text back -/

/-- Value of a decimal digit character. -/
def digitValue (ch : Char) : Nat := ch.toNat - 48

/-- Number read from a list of decimal digit characters, most significant
first, continuing from the value `acc`. It is the inverse of the rendering and
serves to show that the rendering loses nothing. -/
def readDigits (acc : Nat) (digits : List Char) : Nat :=
  digits.foldl (fun value ch => 10 * value + digitValue ch) acc

end Paradox

open Paradox Paradox.TextureLayerGenerator

namespace Paradox

/-! ## Helper lemmas -/

section
variable {F Key Mesh : Type}

theorem Int32.wrap_succ_of_lt {c : Int} (hlo : Int32.MinValue ≤ c) (hhi : c < Int32.MaxValue) :
    Int32.wrap (c + 1) = c + 1 := by
  unfold Int32.wrap
  unfold Int32.MinValue at hlo
  unfold Int32.MaxValue at hhi
  omega

theorem Int32.wrap_succ_maxValue : Int32.wrap (Int32.MaxValue + 1) = Int32.MinValue := by
  decide

theorem vector2_ne_one_iff [One F] (v : Vector2 F) : v ≠ Vector2.One ↔ (v.X ≠ 1 ∨ v.Y ≠ 1) := by
  cases v with
  | mk x y =>
    simp only [Vector2.One, ne_eq, Vector2.mk.injEq]
    tauto

end

/-! ## Shader node of `GenerateTextureLayer` -/

section
variable {F Key Mesh : Type}

/-- C1: with UV scaling (1,1) `GenerateTextureLayer` returns the node named
`ComputeColorTexture` whose arguments are, in order, the name of the indexed key
(base key, counter before the call) and the UV channel name, and only those
two; the node name is the same for every UV channel index. -/
theorem generateTextureLayer_identity_scaling [DecidableEq F] [One F] (env : Platform F Key)
    (vfsOutputPath sourceTextureFile : String) (textureUVSetIndex : Int) (textureCount : Int)
    (surfaceMaterialKey : Key) (meshData : Mesh) (logger : Option Logger) :
    (GenerateTextureLayer env vfsOutputPath sourceTextureFile textureUVSetIndex
        (⟨1, 1⟩ : Vector2 F) textureCount surfaceMaterialKey meshData logger).result
      = ⟨"ComputeColorTexture",
          [env.KeyName (ParameterKeys.IndexedKey surfaceMaterialKey textureCount),
            uvSetName textureUVSetIndex]⟩
    ∧ ∀ otherIndex : Int,
        (GenerateTextureLayer env vfsOutputPath sourceTextureFile otherIndex
          (⟨1, 1⟩ : Vector2 F) textureCount surfaceMaterialKey meshData logger).result.ClassName
        = "ComputeColorTexture" := by
  constructor
  · simp [GenerateTextureLayer, Vector2.One]
  · intro otherIndex
    simp [GenerateTextureLayer, Vector2.One]

/-- C2: with a UV scaling (x, y) that differs from (1,1) in at least one
component `GenerateTextureLayer` returns the node named
`ComputeColorTextureRepeat` with three arguments: the name of the indexed key,
the UV channel name and `float2(` x `, ` y `)` with both components rendered;
when the components render as 2 and 3 the third argument is `float2(2, 3)`. -/
theorem generateTextureLayer_repeat_scaling [DecidableEq F] [One F] (env : Platform F Key)
    (vfsOutputPath sourceTextureFile : String) (textureUVSetIndex : Int) (x y : F)
    (textureCount : Int) (surfaceMaterialKey : Key) (meshData : Mesh) (logger : Option Logger)
    (h : x ≠ 1 ∨ y ≠ 1) :
    (GenerateTextureLayer env vfsOutputPath sourceTextureFile textureUVSetIndex
        (⟨x, y⟩ : Vector2 F) textureCount surfaceMaterialKey meshData logger).result
      = ⟨"ComputeColorTextureRepeat",
          [env.KeyName (ParameterKeys.IndexedKey surfaceMaterialKey textureCount),
            uvSetName textureUVSetIndex,
            "float2(" ++ env.SingleToString x ++ ", " ++ env.SingleToString y ++ ")"]⟩
    ∧ (env.SingleToString x = "2" → env.SingleToString y = "3" →
        (GenerateTextureLayer env vfsOutputPath sourceTextureFile textureUVSetIndex
          (⟨x, y⟩ : Vector2 F) textureCount surfaceMaterialKey meshData logger).result
        = ⟨"ComputeColorTextureRepeat",
            [env.KeyName (ParameterKeys.IndexedKey surfaceMaterialKey textureCount),
              uvSetName textureUVSetIndex, "float2(2, 3)"]⟩) := by
  have hne : (⟨x, y⟩ : Vector2 F) ≠ Vector2.One := (vector2_ne_one_iff _).mpr h
  have hres : (GenerateTextureLayer env vfsOutputPath sourceTextureFile textureUVSetIndex
        (⟨x, y⟩ : Vector2 F) textureCount surfaceMaterialKey meshData logger).result
      = ⟨"ComputeColorTextureRepeat",
          [env.KeyName (ParameterKeys.IndexedKey surfaceMaterialKey textureCount),
            uvSetName textureUVSetIndex,
            "float2(" ++ env.SingleToString x ++ ", " ++ env.SingleToString y ++ ")"]⟩ := by
    simp only [GenerateTextureLayer, Vector2.get]
    rw [if_pos hne]
    simp
  refine ⟨hres, ?_⟩
  intro hx hy
  rw [hres, hx, hy]
  rfl

/-- Witness of C2: scaling (2,3) on the sample platform. -/
theorem generateTextureLayer_repeat_scaling_witness :
    ((2 : Int) ≠ 1 ∨ (3 : Int) ≠ 1)
    ∧ (GenerateTextureLayer samplePlatform "out" "wood.png" 0 (⟨2, 3⟩ : Vector2 Int) 0
        "Diffuse" () none).result
      = ⟨"ComputeColorTextureRepeat", ["Diffuse0", "TEXCOORD", "float2(2, 3)"]⟩ :=
  ⟨by decide,
    (generateTextureLayer_repeat_scaling samplePlatform "out" "wood.png" 0 2 3 0
      "Diffuse" () none (by decide)).2 (by decide) (by decide)⟩

/-- C3: the second argument of the node returned by `GenerateTextureLayer`, the
UV channel name, is `TEXCOORD` for UV channel index 0 and `TEXCOORD` followed by
the decimal text of the index for every other index; index 2 gives
`TEXCOORD2`. -/
theorem generateTextureLayer_uv_channel_name [DecidableEq F] [One F] (env : Platform F Key)
    (vfsOutputPath sourceTextureFile : String) (textureUVSetIndex : Int)
    (textureUVscaling : Vector2 F) (textureCount : Int) (surfaceMaterialKey : Key)
    (meshData : Mesh) (logger : Option Logger) :
    (GenerateTextureLayer env vfsOutputPath sourceTextureFile textureUVSetIndex
        textureUVscaling textureCount surfaceMaterialKey meshData logger).result.GenericArguments[1]?
      = some (if textureUVSetIndex = 0 then "TEXCOORD"
              else "TEXCOORD" ++ Int32.ToString textureUVSetIndex)
    ∧ (GenerateTextureLayer env vfsOutputPath sourceTextureFile 0
        textureUVscaling textureCount surfaceMaterialKey meshData logger).result.GenericArguments[1]?
      = some "TEXCOORD"
    ∧ (GenerateTextureLayer env vfsOutputPath sourceTextureFile 2
        textureUVscaling textureCount surfaceMaterialKey meshData logger).result.GenericArguments[1]?
      = some "TEXCOORD2" := by
  have key : ∀ i : Int,
      (GenerateTextureLayer env vfsOutputPath sourceTextureFile i
        textureUVscaling textureCount surfaceMaterialKey meshData logger).result.GenericArguments[1]?
      = some (uvSetName i) := by
    intro i
    simp only [GenerateTextureLayer]
    split <;> rfl
  refine ⟨?_, ?_, ?_⟩
  · rw [key]
    by_cases h0 : textureUVSetIndex = 0
    · simp [uvSetName, h0]
    · simp [uvSetName, h0]
  · rw [key]; rfl
  · rw [key]; decide

/-- Counterexample of C4 as worded: at the largest counter value the counter
after the call is not the entry value plus one, it is the smallest value. -/
theorem generateTextureLayer_counter_wraps :
    (GenerateTextureLayer samplePlatform "out" "wood.png" 0 (⟨1, 1⟩ : Vector2 Int) 2147483647
        "Diffuse" () none).textureCount ≠ 2147483647 + 1
    ∧ (GenerateTextureLayer samplePlatform "out" "wood.png" 0 (⟨1, 1⟩ : Vector2 Int) 2147483647
        "Diffuse" () none).textureCount = -2147483648 := by
  constructor <;> decide

/-- C4, amended: for every call whose counter on entry is a 32 bit value c, the
key allocated is the indexed key (base key, c), its name is the first argument
of the returned node, and the counter on return is c + 1 unless c is the largest
32 bit value, where it wraps to the smallest one; none of this depends on the
scaling, the UV index, the file system or the logger. -/
theorem generateTextureLayer_counter [DecidableEq F] [One F] (env : Platform F Key)
    (vfsOutputPath sourceTextureFile : String) (textureUVSetIndex : Int)
    (textureUVscaling : Vector2 F) (textureCount : Int) (surfaceMaterialKey : Key)
    (meshData : Mesh) (logger : Option Logger) (hc : Int32.InRange textureCount) :
    (GenerateTextureLayer env vfsOutputPath sourceTextureFile textureUVSetIndex
        textureUVscaling textureCount surfaceMaterialKey meshData logger).parameterKey
      = ParameterKeys.IndexedKey surfaceMaterialKey textureCount
    ∧ (GenerateTextureLayer env vfsOutputPath sourceTextureFile textureUVSetIndex
        textureUVscaling textureCount surfaceMaterialKey meshData logger).result.GenericArguments[0]?
      = some (env.KeyName (ParameterKeys.IndexedKey surfaceMaterialKey textureCount))
    ∧ (GenerateTextureLayer env vfsOutputPath sourceTextureFile textureUVSetIndex
        textureUVscaling textureCount surfaceMaterialKey meshData logger).textureCount
      = if textureCount = Int32.MaxValue then Int32.MinValue else textureCount + 1 := by
  refine ⟨rfl, ?_, ?_⟩
  · simp only [GenerateTextureLayer]
    split <;> rfl
  · show Int32.wrap (textureCount + 1) = _
    by_cases hmax : textureCount = Int32.MaxValue
    · rw [if_pos hmax, hmax]
      exact Int32.wrap_succ_maxValue
    · rw [if_neg hmax]
      exact Int32.wrap_succ_of_lt hc.1 (lt_of_le_of_ne hc.2 hmax)

/-- Witness of C4, amended: a call with counter 0 on the sample platform. -/
theorem generateTextureLayer_counter_witness :
    Int32.InRange 0
    ∧ (GenerateTextureLayer samplePlatform "out" "wood.png" 0 (⟨2, 3⟩ : Vector2 Int) 0
        "Diffuse" () none).textureCount = 1 :=
  ⟨by decide,
    (generateTextureLayer_counter samplePlatform "out" "wood.png" 0 (⟨2, 3⟩ : Vector2 Int) 0
      "Diffuse" () none (by decide)).2.2⟩

end

/-! ## Warnings -/

section
variable {F Key Mesh : Type}

theorem warnTexture_some (env : Platform F Key) (sourceTextureFile : String) (l : Logger) :
    warnTexture env sourceTextureFile (some l)
      = some (if env.FileExists sourceTextureFile
          then l.Warning missingTextureFormat sourceTextureFile else l) := by
  unfold warnTexture
  split <;> rfl

theorem warnTexture_none (env : Platform F Key) (sourceTextureFile : String) :
    warnTexture env sourceTextureFile none = none := by
  unfold warnTexture
  split <;> rfl

theorem generateTextureLayer_logger [DecidableEq F] [One F] (env : Platform F Key)
    (vfsOutputPath sourceTextureFile : String) (textureUVSetIndex : Int)
    (textureUVscaling : Vector2 F) (textureCount : Int) (surfaceMaterialKey : Key)
    (meshData : Mesh) (logger : Option Logger) :
    (GenerateTextureLayer env vfsOutputPath sourceTextureFile textureUVSetIndex
        textureUVscaling textureCount surfaceMaterialKey meshData logger).logger
      = warnTexture env sourceTextureFile logger := rfl

theorem generateMaterialTextureNode_logger [Zero F] (env : Platform F Key)
    (vfsOutputPath sourceTextureFile : String) (textureUVSetIndex : Int)
    (textureUVscaling : Vector2 F) (wrapTextureU wrapTextureV : Bool) (logger : Option Logger) :
    (GenerateMaterialTextureNode env vfsOutputPath sourceTextureFile textureUVSetIndex
        textureUVscaling wrapTextureU wrapTextureV logger).logger
      = warnTexture env sourceTextureFile logger := rfl

end

/-- C5, the code at the failing inputs: on the sample platform, whose file
system holds `wood.png` only, and with a logger that has no message yet, both
methods leave the logger without any message for the missing file `stone.png`
and add one warning, with the path as its argument, for the existing file
`wood.png`. -/
theorem warning_emitted_for_existing_file :
    (GenerateTextureLayer samplePlatform "out" "stone.png" 0 (⟨1, 1⟩ : Vector2 Int) 0
        "Diffuse" () (some ⟨[]⟩)).logger = some ⟨[]⟩
    ∧ (GenerateTextureLayer samplePlatform "out" "wood.png" 0 (⟨1, 1⟩ : Vector2 Int) 0
        "Diffuse" () (some ⟨[]⟩)).logger = some ⟨[⟨missingTextureFormat, "wood.png"⟩]⟩
    ∧ (GenerateMaterialTextureNode samplePlatform "out" "stone.png" 0 (⟨1, 1⟩ : Vector2 Int)
        true true (some ⟨[]⟩)).logger = some ⟨[]⟩
    ∧ (GenerateMaterialTextureNode samplePlatform "out" "wood.png" 0 (⟨1, 1⟩ : Vector2 Int)
        true true (some ⟨[]⟩)).logger = some ⟨[⟨missingTextureFormat, "wood.png"⟩]⟩ := by
  refine ⟨?_, ?_, ?_, ?_⟩ <;> rfl

/-! ## Node of `GenerateMaterialTextureNode` -/

section
variable {F Key Mesh : Type}

/-- Counterexample of C6 as worded: two calls with the same source path return
texture references whose ids are not distinct. -/
theorem generateMaterialTextureNode_ids_not_distinct :
    ¬ ((GenerateMaterialTextureNode samplePlatform "out" "wood.png" 0 (⟨1, 1⟩ : Vector2 Int)
          true true none).result.Texture.Id
        ≠ (GenerateMaterialTextureNode samplePlatform "out" "wood.png" 0 (⟨1, 1⟩ : Vector2 Int)
          true true none).result.Texture.Id) := by
  decide

/-- C6, amended: any two calls of `GenerateMaterialTextureNode` with the same
source path return texture references with equal display names and with equal
ids, the id being the all zero `Guid` in every call. -/
theorem generateMaterialTextureNode_same_source [Zero F] (env : Platform F Key)
    (sourceTextureFile : String)
    (vfsOutputPath₁ vfsOutputPath₂ : String) (textureUVSetIndex₁ textureUVSetIndex₂ : Int)
    (textureUVscaling₁ textureUVscaling₂ : Vector2 F)
    (wrapTextureU₁ wrapTextureV₁ wrapTextureU₂ wrapTextureV₂ : Bool)
    (logger₁ logger₂ : Option Logger) :
    (GenerateMaterialTextureNode env vfsOutputPath₁ sourceTextureFile textureUVSetIndex₁
        textureUVscaling₁ wrapTextureU₁ wrapTextureV₁ logger₁).result.Texture.Name
      = (GenerateMaterialTextureNode env vfsOutputPath₂ sourceTextureFile textureUVSetIndex₂
        textureUVscaling₂ wrapTextureU₂ wrapTextureV₂ logger₂).result.Texture.Name
    ∧ (GenerateMaterialTextureNode env vfsOutputPath₁ sourceTextureFile textureUVSetIndex₁
        textureUVscaling₁ wrapTextureU₁ wrapTextureV₁ logger₁).result.Texture.Id
      = (GenerateMaterialTextureNode env vfsOutputPath₂ sourceTextureFile textureUVSetIndex₂
        textureUVscaling₂ wrapTextureU₂ wrapTextureV₂ logger₂).result.Texture.Id
    ∧ (GenerateMaterialTextureNode env vfsOutputPath₁ sourceTextureFile textureUVSetIndex₁
        textureUVscaling₁ wrapTextureU₁ wrapTextureV₁ logger₁).result.Texture.Id
      = Guid.default :=
  ⟨rfl, rfl, rfl⟩

/-- C8: the node returned by `GenerateMaterialTextureNode` has U addressing
`Wrap` when the wrap U flag is set and `Clamp` otherwise, and V addressing
`Wrap` when the wrap V flag is set and `Clamp` otherwise; the flags true and
false give U = `Wrap` and V = `Clamp`. -/
theorem generateMaterialTextureNode_addressing [Zero F] (env : Platform F Key)
    (vfsOutputPath sourceTextureFile : String) (textureUVSetIndex : Int)
    (textureUVscaling : Vector2 F) (wrapTextureU wrapTextureV : Bool) (logger : Option Logger) :
    (GenerateMaterialTextureNode env vfsOutputPath sourceTextureFile textureUVSetIndex
        textureUVscaling wrapTextureU wrapTextureV logger).result.AddressModeU
      = (if wrapTextureU then TextureAddressMode.Wrap else TextureAddressMode.Clamp)
    ∧ (GenerateMaterialTextureNode env vfsOutputPath sourceTextureFile textureUVSetIndex
        textureUVscaling wrapTextureU wrapTextureV logger).result.AddressModeV
      = (if wrapTextureV then TextureAddressMode.Wrap else TextureAddressMode.Clamp)
    ∧ (GenerateMaterialTextureNode env vfsOutputPath sourceTextureFile textureUVSetIndex
        textureUVscaling true false logger).result.AddressModeU = TextureAddressMode.Wrap
    ∧ (GenerateMaterialTextureNode env vfsOutputPath sourceTextureFile textureUVSetIndex
        textureUVscaling true false logger).result.AddressModeV = TextureAddressMode.Clamp :=
  ⟨rfl, rfl, rfl, rfl⟩

/-- C9: the node returned by `GenerateMaterialTextureNode` carries the given UV
channel index, the given UV scaling as it is, also when it is (1,1), the UV
offset (0,0), and a texture reference whose display name is the file name
without extension of the source path. -/
theorem generateMaterialTextureNode_fields [One F] [Zero F] (env : Platform F Key)
    (vfsOutputPath sourceTextureFile : String) (textureUVSetIndex : Int)
    (textureUVscaling : Vector2 F) (wrapTextureU wrapTextureV : Bool) (logger : Option Logger) :
    (GenerateMaterialTextureNode env vfsOutputPath sourceTextureFile textureUVSetIndex
        textureUVscaling wrapTextureU wrapTextureV logger).result.TexcoordIndex
      = textureUVSetIndex
    ∧ (GenerateMaterialTextureNode env vfsOutputPath sourceTextureFile textureUVSetIndex
        textureUVscaling wrapTextureU wrapTextureV logger).result.Scale = textureUVscaling
    ∧ (GenerateMaterialTextureNode env vfsOutputPath sourceTextureFile textureUVSetIndex
        (⟨1, 1⟩ : Vector2 F) wrapTextureU wrapTextureV logger).result.Scale = ⟨1, 1⟩
    ∧ (GenerateMaterialTextureNode env vfsOutputPath sourceTextureFile textureUVSetIndex
        textureUVscaling wrapTextureU wrapTextureV logger).result.Offset = ⟨0, 0⟩
    ∧ (GenerateMaterialTextureNode env vfsOutputPath sourceTextureFile textureUVSetIndex
        textureUVscaling wrapTextureU wrapTextureV logger).result.Texture.Name
      = env.GetFileNameWithoutExtension sourceTextureFile :=
  ⟨rfl, rfl, rfl, rfl, rfl⟩

/-- Counterexample of C10 as worded: the texture reference that
`GenerateMaterialTextureNode` builds for output path `out` and source
`wood.png` is named `wood`, not `out_wood`. -/
theorem generateMaterialTextureNode_reference_not_at_url :
    (GenerateMaterialTextureNode samplePlatform "out" "wood.png" 0 (⟨1, 1⟩ : Vector2 Int)
        true true none).result.Texture.Name
      ≠ "out" ++ "_" ++ samplePlatform.GetFileNameWithoutExtension "wood.png"
    ∧ (GenerateMaterialTextureNode samplePlatform "out" "wood.png" 0 (⟨1, 1⟩ : Vector2 Int)
        true true none).result.Texture.Name = "wood" := by
  constructor <;> decide

/-- C10, amended: the texture reference built by `GenerateTextureLayer` has the
location output path, underscore, file name without extension of the source
path; `GenerateMaterialTextureNode` computes the same string as its local `url`
and builds its texture reference from the all zero id and the bare file name
without extension. -/
theorem texture_reference_location [DecidableEq F] [One F] [Zero F] (env : Platform F Key)
    (vfsOutputPath sourceTextureFile : String) (textureUVSetIndex : Int)
    (textureUVscaling : Vector2 F) (textureCount : Int) (surfaceMaterialKey : Key)
    (meshData : Mesh) (wrapTextureU wrapTextureV : Bool) (logger : Option Logger) :
    (GenerateTextureLayer env vfsOutputPath sourceTextureFile textureUVSetIndex
        textureUVscaling textureCount surfaceMaterialKey meshData logger).texture.Location
      = vfsOutputPath ++ "_" ++ env.GetFileNameWithoutExtension sourceTextureFile
    ∧ (GenerateMaterialTextureNode env vfsOutputPath sourceTextureFile textureUVSetIndex
        textureUVscaling wrapTextureU wrapTextureV logger).url
      = vfsOutputPath ++ "_" ++ env.GetFileNameWithoutExtension sourceTextureFile
    ∧ (GenerateMaterialTextureNode env vfsOutputPath sourceTextureFile textureUVSetIndex
        textureUVscaling wrapTextureU wrapTextureV logger).result.Texture
      = ⟨Guid.default, env.GetFileNameWithoutExtension sourceTextureFile⟩ :=
  ⟨rfl, rfl, rfl⟩

end

/-! ## Sequences of calls on one counter -/

section
variable {F Key Mesh : Type}

theorem allocatedIndices_nil [DecidableEq F] [One F] (env : Platform F Key) (c : Int) :
    allocatedIndices env ([] : List (LayerCall F Key Mesh)) c = [] := rfl

theorem allocatedIndices_cons [DecidableEq F] [One F] (env : Platform F Key) (call : LayerCall F Key Mesh)
    (rest : List (LayerCall F Key Mesh)) (c : Int) :
    allocatedIndices env (call :: rest) c
      = c :: allocatedIndices env rest (Int32.wrap (c + 1)) := rfl

theorem allocatedIndices_eq_of_no_overflow [DecidableEq F] [One F] (env : Platform F Key)
    (calls : List (LayerCall F Key Mesh)) :
    ∀ c : Int, Int32.MinValue ≤ c → c + calls.length ≤ Int32.MaxValue + 1 →
      allocatedIndices env calls c = (List.range calls.length).map (fun i : Nat => c + i) := by
  induction calls with
  | nil => intro c _ _; rfl
  | cons call rest ih =>
    intro c hlo hhi
    rw [allocatedIndices_cons, List.length_cons, List.range_succ_eq_map, List.map_cons,
      List.map_map]
    cases rest with
    | nil => simp [allocatedIndices_nil]
    | cons call2 rest2 =>
      have hlt : c < Int32.MaxValue := by
        simp only [List.length_cons, Nat.cast_add, Nat.cast_one] at hhi
        omega
      rw [Int32.wrap_succ_of_lt hlo hlt]
      have hlo2 : Int32.MinValue ≤ c + 1 := by omega
      have hhi2 : c + 1 + ((call2 :: rest2).length : Int) ≤ Int32.MaxValue + 1 := by
        simp only [List.length_cons, Nat.cast_add, Nat.cast_one] at hhi ⊢
        omega
      rw [ih (c + 1) hlo2 hhi2]
      simp only [Nat.cast_zero, add_zero, List.cons.injEq, true_and]
      apply List.map_congr_left
      intro i _
      simp only [Function.comp_apply, Nat.cast_succ]
      omega

/-- Counterexample of C7 as worded: two calls that start at the largest counter
value allocate that value and then the smallest value, so the indices are not c
and c + 1 and are not increasing. -/
theorem allocatedIndices_wrap :
    allocatedIndices samplePlatform
        [(⟨"out", "wood.png", 0, ⟨1, 1⟩, "Diffuse", (), none⟩ : LayerCall Int String Unit),
          ⟨"out", "wood.png", 0, ⟨1, 1⟩, "Diffuse", (), none⟩] 2147483647
      ≠ [2147483647, 2147483647 + 1]
    ∧ allocatedIndices samplePlatform
        [(⟨"out", "wood.png", 0, ⟨1, 1⟩, "Diffuse", (), none⟩ : LayerCall Int String Unit),
          ⟨"out", "wood.png", 0, ⟨1, 1⟩, "Diffuse", (), none⟩] 2147483647
      = [2147483647, -2147483648] := by
  constructor <;> decide

/-- C7, amended: for every sequence of n calls that thread one counter and
every 32 bit starting value c with c + n - 1 not above the largest 32 bit value,
the calls allocate the key indices c, c + 1, ..., c + n - 1 in call order, which
are strictly increasing and pairwise distinct; starting at 0, two calls allocate
index 0 and then index 1. -/
theorem allocatedIndices_sequential [DecidableEq F] [One F] (env : Platform F Key)
    (calls : List (LayerCall F Key Mesh)) (c : Int)
    (hlo : Int32.MinValue ≤ c) (hhi : c + calls.length ≤ Int32.MaxValue + 1) :
    allocatedIndices env calls c = (List.range calls.length).map (fun i : Nat => c + i)
    ∧ (allocatedIndices env calls c).Pairwise (fun a b => a < b)
    ∧ (allocatedIndices env calls c).Nodup
    ∧ ∀ first second : LayerCall F Key Mesh,
        allocatedIndices env [first, second] 0 = [0, 1] := by
  have heq := allocatedIndices_eq_of_no_overflow env calls c hlo hhi
  have hpw : (allocatedIndices env calls c).Pairwise (fun a b => a < b) := by
    rw [heq]
    exact List.Pairwise.map _ (fun a b hab => by show c + (a : Int) < c + (b : Int); omega)
      (List.pairwise_lt_range calls.length)
  refine ⟨heq, hpw, ?_, ?_⟩
  · exact hpw.imp (fun hab => ne_of_lt hab)
  · intro first second
    rfl

/-- Witness of C7, amended: two calls on the sample platform starting at 0. -/
theorem allocatedIndices_sequential_witness :
    Int32.MinValue ≤ 0
    ∧ (0 : Int) + ([(⟨"out", "wood.png", 0, ⟨1, 1⟩, "Diffuse", (), none⟩ :
          LayerCall Int String Unit),
        ⟨"out", "stone.png", 2, ⟨2, 3⟩, "Diffuse", (), none⟩].length : Nat) ≤ Int32.MaxValue + 1
    ∧ allocatedIndices samplePlatform
        [(⟨"out", "wood.png", 0, ⟨1, 1⟩, "Diffuse", (), none⟩ : LayerCall Int String Unit),
          ⟨"out", "stone.png", 2, ⟨2, 3⟩, "Diffuse", (), none⟩] 0
      = (List.range 2).map (fun i : Nat => (0 : Int) + i) :=
  ⟨by decide, by decide,
    (allocatedIndices_sequential samplePlatform
      [(⟨"out", "wood.png", 0, ⟨1, 1⟩, "Diffuse", (), none⟩ : LayerCall Int String Unit),
        ⟨"out", "stone.png", 2, ⟨2, 3⟩, "Diffuse", (), none⟩] 0 (by decide) (by decide)).1⟩

end

/-! ## Decimal rendering -/

theorem digitValue_digitChar (k : Nat) (hk : k < 10) : digitValue (Nat.digitChar k) = k := by
  interval_cases k <;> rfl

theorem readDigits_toDigitsCore (fuel : Nat) :
    ∀ (n : Nat) (ds : List Char), n < fuel →
      readDigits 0 (Nat.toDigitsCore 10 fuel n ds) = readDigits n ds := by
  induction fuel with
  | zero => intro n ds h; omega
  | succ fuel ih =>
    intro n ds hn
    have hd : digitValue (Nat.digitChar (n % 10)) = n % 10 :=
      digitValue_digitChar _ (Nat.mod_lt _ (by decide))
    unfold Nat.toDigitsCore
    by_cases h0 : n / 10 = 0
    · simp only [h0, if_true]
      have hsmall : n % 10 = n := Nat.mod_eq_of_lt (by omega)
      rw [hsmall] at hd
      simp only [readDigits, List.foldl_cons, hsmall, hd, Nat.mul_zero, Nat.zero_add]
    · simp only [h0, if_false]
      rw [ih (n / 10) _ (by omega)]
      simp only [readDigits, List.foldl_cons, hd]
      congr 1
      omega

theorem readDigits_repr (n : Nat) : readDigits 0 (Nat.repr n).data = n := by
  show readDigits 0 (Nat.toDigitsCore 10 (n + 1) n []) = n
  rw [readDigits_toDigitsCore (n + 1) n [] (Nat.lt_succ_self n)]
  rfl

theorem int32ToString_natCast (n : Nat) : Int32.ToString (n : Int) = Nat.repr n := rfl

theorem uvSetName_natCast_data (n : Nat) :
    (uvSetName (n : Int)).data
      = "TEXCOORD".data ++ (if n = 0 then [] else (Nat.repr n).data) := by
  unfold uvSetName
  by_cases h0 : n = 0
  · subst h0
    simp
  · have hne : (n : Int) ≠ 0 := by exact_mod_cast h0
    simp only [hne, ne_eq, not_false_eq_true, if_true, h0, if_false, int32ToString_natCast,
      String.data_append]

theorem readDigits_uvSetName_suffix (n : Nat) :
    readDigits 0 (if n = 0 then [] else (Nat.repr n).data) = n := by
  by_cases h0 : n = 0
  · subst h0
    rfl
  · rw [if_neg h0]
    exact readDigits_repr n

theorem uvSetName_natCast_injective (m n : Nat)
    (h : uvSetName (m : Int) = uvSetName (n : Int)) : m = n := by
  have hdata := congrArg String.data h
  rw [uvSetName_natCast_data, uvSetName_natCast_data] at hdata
  have hsuffix := List.append_cancel_left hdata
  rw [← readDigits_uvSetName_suffix m, ← readDigits_uvSetName_suffix n, hsuffix]

theorem generateTextureLayer_second_argument {F Key Mesh : Type} [DecidableEq F] [One F]
    (env : Platform F Key) (vfsOutputPath sourceTextureFile : String) (textureUVSetIndex : Int)
    (textureUVscaling : Vector2 F) (textureCount : Int) (surfaceMaterialKey : Key)
    (meshData : Mesh) (logger : Option Logger) :
    (GenerateTextureLayer env vfsOutputPath sourceTextureFile textureUVSetIndex
        textureUVscaling textureCount surfaceMaterialKey meshData logger).result.GenericArguments[1]?
      = some (uvSetName textureUVSetIndex) := by
  simp only [GenerateTextureLayer]
  split <;> rfl

theorem generateTextureLayer_first_argument {F Key Mesh : Type} [DecidableEq F] [One F]
    (env : Platform F Key) (vfsOutputPath sourceTextureFile : String) (textureUVSetIndex : Int)
    (textureUVscaling : Vector2 F) (textureCount : Int) (surfaceMaterialKey : Key)
    (meshData : Mesh) (logger : Option Logger) :
    (GenerateTextureLayer env vfsOutputPath sourceTextureFile textureUVSetIndex
        textureUVscaling textureCount surfaceMaterialKey meshData logger).result.GenericArguments[0]?
      = some (env.KeyName (ParameterKeys.IndexedKey surfaceMaterialKey textureCount)) := by
  simp only [GenerateTextureLayer]
  split <;> rfl

theorem generateTextureLayer_className {F Key Mesh : Type} [DecidableEq F] [One F]
    (env : Platform F Key) (vfsOutputPath sourceTextureFile : String) (textureUVSetIndex : Int)
    (textureUVscaling : Vector2 F) (textureCount : Int) (surfaceMaterialKey : Key)
    (meshData : Mesh) (logger : Option Logger) :
    (GenerateTextureLayer env vfsOutputPath sourceTextureFile textureUVSetIndex
        textureUVscaling textureCount surfaceMaterialKey meshData logger).result.ClassName
      = if textureUVscaling = Vector2.One then "ComputeColorTexture"
        else "ComputeColorTextureRepeat" := by
  simp only [GenerateTextureLayer]
  by_cases h : textureUVscaling = Vector2.One
  · simp [h]
  · simp [h]

/-! ## What the result depends on -/

section
variable {F Key Mesh : Type}

/-- C11: a missing source file and an absent logger do not change the result.
With all other inputs fixed, the node returned by `GenerateTextureLayer`, its
updated counter and the node returned by `GenerateMaterialTextureNode` are the
same for every answer of the file system and for every logger, supplied or
not; both methods are total functions; and without a logger no warning is
emitted, whether the file exists or not. -/
theorem result_independent_of_file_and_logger [DecidableEq F] [One F] [Zero F]
    (env : Platform F Key) (fileExists₁ fileExists₂ : String → Bool)
    (vfsOutputPath sourceTextureFile : String) (textureUVSetIndex : Int)
    (textureUVscaling : Vector2 F) (textureCount : Int) (surfaceMaterialKey : Key)
    (meshData : Mesh) (wrapTextureU wrapTextureV : Bool) (logger₁ logger₂ : Option Logger) :
    (GenerateTextureLayer { env with FileExists := fileExists₁ } vfsOutputPath sourceTextureFile
        textureUVSetIndex textureUVscaling textureCount surfaceMaterialKey meshData logger₁).result
      = (GenerateTextureLayer { env with FileExists := fileExists₂ } vfsOutputPath
        sourceTextureFile textureUVSetIndex textureUVscaling textureCount surfaceMaterialKey
        meshData logger₂).result
    ∧ (GenerateTextureLayer { env with FileExists := fileExists₁ } vfsOutputPath sourceTextureFile
        textureUVSetIndex textureUVscaling textureCount surfaceMaterialKey meshData
        logger₁).textureCount
      = (GenerateTextureLayer { env with FileExists := fileExists₂ } vfsOutputPath
        sourceTextureFile textureUVSetIndex textureUVscaling textureCount surfaceMaterialKey
        meshData logger₂).textureCount
    ∧ (GenerateMaterialTextureNode { env with FileExists := fileExists₁ } vfsOutputPath
        sourceTextureFile textureUVSetIndex textureUVscaling wrapTextureU wrapTextureV
        logger₁).result
      = (GenerateMaterialTextureNode { env with FileExists := fileExists₂ } vfsOutputPath
        sourceTextureFile textureUVSetIndex textureUVscaling wrapTextureU wrapTextureV
        logger₂).result
    ∧ (GenerateTextureLayer { env with FileExists := fileExists₁ } vfsOutputPath sourceTextureFile
        textureUVSetIndex textureUVscaling textureCount surfaceMaterialKey meshData none).logger
      = none
    ∧ (GenerateMaterialTextureNode { env with FileExists := fileExists₁ } vfsOutputPath
        sourceTextureFile textureUVSetIndex textureUVscaling wrapTextureU wrapTextureV
        none).logger
      = none := by
  refine ⟨rfl, rfl, rfl, ?_, ?_⟩
  · rw [generateTextureLayer_logger]
    exact warnTexture_none _ _
  · rw [generateMaterialTextureNode_logger]
    exact warnTexture_none _ _

/-- C12: in `GenerateTextureLayer` two calls that agree on whether the UV
scaling is (1,1) return nodes with the same name, whatever their other inputs
and platforms are, and two calls that differ only in the UV scaling produce the
same parameter key name, the same UV channel name, the same updated counter and
the same state of the logger. -/
theorem generateTextureLayer_scaling_only_selects_variant [DecidableEq F] [One F]
    (env₁ env₂ env : Platform F Key)
    (vfsOutputPath₁ vfsOutputPath₂ vfsOutputPath : String)
    (sourceTextureFile₁ sourceTextureFile₂ sourceTextureFile : String)
    (textureUVSetIndex₁ textureUVSetIndex₂ textureUVSetIndex : Int)
    (textureUVscaling₁ textureUVscaling₂ : Vector2 F)
    (textureCount₁ textureCount₂ textureCount : Int)
    (surfaceMaterialKey₁ surfaceMaterialKey₂ surfaceMaterialKey : Key)
    (meshData₁ meshData₂ meshData : Mesh) (logger₁ logger₂ logger : Option Logger)
    (h : textureUVscaling₁ = Vector2.One ↔ textureUVscaling₂ = Vector2.One) :
    (GenerateTextureLayer env₁ vfsOutputPath₁ sourceTextureFile₁ textureUVSetIndex₁
        textureUVscaling₁ textureCount₁ surfaceMaterialKey₁ meshData₁ logger₁).result.ClassName
      = (GenerateTextureLayer env₂ vfsOutputPath₂ sourceTextureFile₂ textureUVSetIndex₂
        textureUVscaling₂ textureCount₂ surfaceMaterialKey₂ meshData₂ logger₂).result.ClassName
    ∧ ∀ scaling₁ scaling₂ : Vector2 F,
        (GenerateTextureLayer env vfsOutputPath sourceTextureFile textureUVSetIndex
            scaling₁ textureCount surfaceMaterialKey meshData logger).result.GenericArguments[0]?
          = (GenerateTextureLayer env vfsOutputPath sourceTextureFile textureUVSetIndex
            scaling₂ textureCount surfaceMaterialKey meshData logger).result.GenericArguments[0]?
        ∧ (GenerateTextureLayer env vfsOutputPath sourceTextureFile textureUVSetIndex
            scaling₁ textureCount surfaceMaterialKey meshData logger).result.GenericArguments[1]?
          = (GenerateTextureLayer env vfsOutputPath sourceTextureFile textureUVSetIndex
            scaling₂ textureCount surfaceMaterialKey meshData logger).result.GenericArguments[1]?
        ∧ (GenerateTextureLayer env vfsOutputPath sourceTextureFile textureUVSetIndex
            scaling₁ textureCount surfaceMaterialKey meshData logger).textureCount
          = (GenerateTextureLayer env vfsOutputPath sourceTextureFile textureUVSetIndex
            scaling₂ textureCount surfaceMaterialKey meshData logger).textureCount
        ∧ (GenerateTextureLayer env vfsOutputPath sourceTextureFile textureUVSetIndex
            scaling₁ textureCount surfaceMaterialKey meshData logger).logger
          = (GenerateTextureLayer env vfsOutputPath sourceTextureFile textureUVSetIndex
            scaling₂ textureCount surfaceMaterialKey meshData logger).logger := by
  constructor
  · rw [generateTextureLayer_className, generateTextureLayer_className]
    by_cases h₁ : textureUVscaling₁ = Vector2.One
    · rw [if_pos h₁, if_pos (h.mp h₁)]
    · rw [if_neg h₁, if_neg (fun h₂ => h₁ (h.mpr h₂))]
  · intro scaling₁ scaling₂
    refine ⟨?_, ?_, rfl, rfl⟩
    · rw [generateTextureLayer_first_argument, generateTextureLayer_first_argument]
    · rw [generateTextureLayer_second_argument, generateTextureLayer_second_argument]

/-- Witness of C12: the scalings (2,3) and (5,1) both differ from (1,1). -/
theorem generateTextureLayer_scaling_only_selects_variant_witness :
    ((⟨2, 3⟩ : Vector2 Int) = Vector2.One ↔ (⟨5, 1⟩ : Vector2 Int) = Vector2.One)
    ∧ (GenerateTextureLayer samplePlatform "out" "wood.png" 0 (⟨2, 3⟩ : Vector2 Int) 0
        "Diffuse" () none).result.ClassName
      = (GenerateTextureLayer samplePlatform "dir" "stone.png" 4 (⟨5, 1⟩ : Vector2 Int) 7
        "Normal" () (some ⟨[]⟩)).result.ClassName :=
  ⟨by decide,
    (generateTextureLayer_scaling_only_selects_variant samplePlatform samplePlatform
      samplePlatform "out" "dir" "out" "wood.png" "stone.png" "wood.png" 0 4 0
      (⟨2, 3⟩ : Vector2 Int) (⟨5, 1⟩ : Vector2 Int) 0 7 0 "Diffuse" "Normal" "Diffuse"
      () () () none (some ⟨[]⟩) none (by decide)).1⟩

/-- C13: `GenerateTextureLayer` leaves the target mesh, and with it the
parameter bag of the mesh, as it was on entry in every call; and two file
systems that give the same answer for the source file lead, with the same other
inputs and counter, to the same node, the same counter and the same state of
the logger, so the counter and the warning are the only effects. -/
theorem generateTextureLayer_frame [DecidableEq F] [One F]
    (env : Platform F Key) (fileExists : String → Bool)
    (vfsOutputPath sourceTextureFile : String) (textureUVSetIndex : Int)
    (textureUVscaling : Vector2 F) (textureCount : Int) (surfaceMaterialKey : Key)
    (meshData : Mesh) (logger : Option Logger)
    (h : fileExists sourceTextureFile = env.FileExists sourceTextureFile) :
    (GenerateTextureLayer env vfsOutputPath sourceTextureFile textureUVSetIndex
        textureUVscaling textureCount surfaceMaterialKey meshData logger).meshData = meshData
    ∧ (GenerateTextureLayer { env with FileExists := fileExists } vfsOutputPath sourceTextureFile
        textureUVSetIndex textureUVscaling textureCount surfaceMaterialKey meshData logger).result
      = (GenerateTextureLayer env vfsOutputPath sourceTextureFile textureUVSetIndex
        textureUVscaling textureCount surfaceMaterialKey meshData logger).result
    ∧ (GenerateTextureLayer { env with FileExists := fileExists } vfsOutputPath sourceTextureFile
        textureUVSetIndex textureUVscaling textureCount surfaceMaterialKey meshData
        logger).textureCount
      = (GenerateTextureLayer env vfsOutputPath sourceTextureFile textureUVSetIndex
        textureUVscaling textureCount surfaceMaterialKey meshData logger).textureCount
    ∧ (GenerateTextureLayer { env with FileExists := fileExists } vfsOutputPath sourceTextureFile
        textureUVSetIndex textureUVscaling textureCount surfaceMaterialKey meshData logger).logger
      = (GenerateTextureLayer env vfsOutputPath sourceTextureFile textureUVSetIndex
        textureUVscaling textureCount surfaceMaterialKey meshData logger).logger := by
  refine ⟨rfl, rfl, rfl, ?_⟩
  rw [generateTextureLayer_logger, generateTextureLayer_logger]
  unfold warnTexture
  simp only [h]

/-- Witness of C13: a file system where every file exists agrees with the
sample platform on `wood.png`. -/
theorem generateTextureLayer_frame_witness :
    (fun _ : String => true) "wood.png" = samplePlatform.FileExists "wood.png"
    ∧ (GenerateTextureLayer samplePlatform "out" "wood.png" 0 (⟨2, 3⟩ : Vector2 Int) 0
        "Diffuse" [(1 : Nat), 2] (some ⟨[]⟩)).meshData = [1, 2] :=
  ⟨by decide,
    (generateTextureLayer_frame samplePlatform (fun _ => true) "out" "wood.png" 0
      (⟨2, 3⟩ : Vector2 Int) 0 "Diffuse" [(1 : Nat), 2] (some ⟨[]⟩) (by decide)).1⟩

/-- C14: the node returned by `GenerateTextureLayer` and the updated counter
are a function of the UV channel index, the UV scaling, the counter on entry
and the base key only: two calls that agree on these return equal nodes and
equal counters, also when their output paths, source paths, meshes, loggers,
file systems and path helpers differ. -/
theorem generateTextureLayer_result_ignores_paths [DecidableEq F] [One F]
    (env : Platform F Key) (getFileName₁ getFileName₂ : String → String)
    (fileExists₁ fileExists₂ : String → Bool)
    (vfsOutputPath₁ vfsOutputPath₂ sourceTextureFile₁ sourceTextureFile₂ : String)
    (textureUVSetIndex : Int) (textureUVscaling : Vector2 F) (textureCount : Int)
    (surfaceMaterialKey : Key) (meshData₁ meshData₂ : Mesh) (logger₁ logger₂ : Option Logger) :
    (GenerateTextureLayer
        { env with GetFileNameWithoutExtension := getFileName₁, FileExists := fileExists₁ }
        vfsOutputPath₁ sourceTextureFile₁ textureUVSetIndex textureUVscaling textureCount
        surfaceMaterialKey meshData₁ logger₁).result
      = (GenerateTextureLayer
        { env with GetFileNameWithoutExtension := getFileName₂, FileExists := fileExists₂ }
        vfsOutputPath₂ sourceTextureFile₂ textureUVSetIndex textureUVscaling textureCount
        surfaceMaterialKey meshData₂ logger₂).result
    ∧ (GenerateTextureLayer
        { env with GetFileNameWithoutExtension := getFileName₁, FileExists := fileExists₁ }
        vfsOutputPath₁ sourceTextureFile₁ textureUVSetIndex textureUVscaling textureCount
        surfaceMaterialKey meshData₁ logger₁).textureCount
      = (GenerateTextureLayer
        { env with GetFileNameWithoutExtension := getFileName₂, FileExists := fileExists₂ }
        vfsOutputPath₂ sourceTextureFile₂ textureUVSetIndex textureUVscaling textureCount
        surfaceMaterialKey meshData₂ logger₂).textureCount :=
  ⟨rfl, rfl⟩

/-- C15: the node returned by `GenerateMaterialTextureNode` does not depend on
the output path: two calls that differ only in `vfsOutputPath` return equal
nodes. -/
theorem generateMaterialTextureNode_ignores_output_path [Zero F]
    (env : Platform F Key) (vfsOutputPath₁ vfsOutputPath₂ sourceTextureFile : String)
    (textureUVSetIndex : Int) (textureUVscaling : Vector2 F)
    (wrapTextureU wrapTextureV : Bool) (logger : Option Logger) :
    (GenerateMaterialTextureNode env vfsOutputPath₁ sourceTextureFile textureUVSetIndex
        textureUVscaling wrapTextureU wrapTextureV logger).result
      = (GenerateMaterialTextureNode env vfsOutputPath₂ sourceTextureFile textureUVSetIndex
        textureUVscaling wrapTextureU wrapTextureV logger).result :=
  rfl

/-- C16: the UV channel naming of `GenerateTextureLayer` is injective on UV
channel indices that are not negative: when the names for i and j are equal,
or the second arguments of the nodes of two calls with indices i and j are
equal, then i = j. -/
theorem uvSetName_injective_on_nonneg [DecidableEq F] [One F] (i j : Int)
    (hi : 0 ≤ i) (hj : 0 ≤ j) :
    (uvSetName i = uvSetName j → i = j)
    ∧ ∀ (env₁ env₂ : Platform F Key) (vfsOutputPath₁ vfsOutputPath₂ : String)
        (sourceTextureFile₁ sourceTextureFile₂ : String)
        (textureUVscaling₁ textureUVscaling₂ : Vector2 F) (textureCount₁ textureCount₂ : Int)
        (surfaceMaterialKey₁ surfaceMaterialKey₂ : Key) (meshData₁ meshData₂ : Mesh)
        (logger₁ logger₂ : Option Logger),
        (GenerateTextureLayer env₁ vfsOutputPath₁ sourceTextureFile₁ i textureUVscaling₁
            textureCount₁ surfaceMaterialKey₁ meshData₁ logger₁).result.GenericArguments[1]?
          = (GenerateTextureLayer env₂ vfsOutputPath₂ sourceTextureFile₂ j textureUVscaling₂
            textureCount₂ surfaceMaterialKey₂ meshData₂ logger₂).result.GenericArguments[1]?
        → i = j := by
  have hnames : uvSetName i = uvSetName j → i = j := by
    intro h
    obtain ⟨m, rfl⟩ := Int.eq_ofNat_of_zero_le hi
    obtain ⟨n, rfl⟩ := Int.eq_ofNat_of_zero_le hj
    exact congrArg Int.ofNat (uvSetName_natCast_injective m n h)
  refine ⟨hnames, ?_⟩
  intro env₁ env₂ _ _ _ _ _ _ _ _ _ _ _ _ _ _ h
  rw [generateTextureLayer_second_argument, generateTextureLayer_second_argument] at h
  exact hnames (Option.some.inj h)

/-- Witness of C16: the UV channels 1 and 2 have different names. -/
theorem uvSetName_injective_on_nonneg_witness :
    (0 : Int) ≤ 1 ∧ (0 : Int) ≤ 2 ∧ uvSetName 1 ≠ uvSetName 2 :=
  ⟨by decide, by decide,
    fun h => absurd
      ((@uvSetName_injective_on_nonneg Int String Unit _ _ 1 2
        (by decide) (by decide)).1 h) (by decide)⟩

end

end Paradox
